import Mathlib

/-!
Shallow embedding of `src/main.ts` of the obisidian-hugo-post plugin.

The embedded parts are: the naming function `formatDatePrefix`, the string
enum `PostKind` and the suggestion filter of `PostKindChooserModal`, the
folder-name computation and event sequence of the `create-new-post`
command callback, the buffer/submit behaviour of `PostTitleModal`, and the
settings load/save pair of `MyPlugin`.
-/

namespace HugoPost

/-- A JavaScript `Date` value, reduced to the five local calendar accessor
fields that `formatDatePrefix` reads.  `getMonth` is 0-indexed, as in JS. -/
structure JsDate where
  getFullYear : Nat
  getMonth : Nat
  getDate : Nat
  getHours : Nat
  getMinutes : Nat
deriving DecidableEq

/-- JS `s.padStart(2, "0")`: prepend `'0'` characters until the length is
at least 2. -/
def padStart2 (s : String) : String :=
  if s.length ≥ 2 then s else String.mk (List.replicate (2 - s.length) '0') ++ s

/-- The local helper `pad` inside `formatDatePrefix`:
`(value) => value.toString().padStart(2, "0")`. -/
def pad (value : Nat) : String :=
  padStart2 (toString value)

/-- `formatDatePrefix` from `src/main.ts` lines 194-202. -/
def formatDatePrefix (date : JsDate) : String :=
  let year := toString date.getFullYear
  let month := pad (date.getMonth + 1)
  let day := pad date.getDate
  let hours := pad date.getHours
  let minutes := pad date.getMinutes
  year ++ "-" ++ month ++ "-" ++ day ++ "-" ++ hours ++ "-" ++ minutes

-- The TS string enum `PostKind`: each member is a string value.
namespace PostKind

def BlogPost : String := "blogpost"

def Note : String := "note"

def Photos : String := "photos"

/-- `Object.values(PostKind)`: the member values in declaration order. -/
def values : List String := [BlogPost, Note, Photos]

end PostKind

/-- Substring search over character lists: does `sub` occur contiguously
in `l`?  Written as a structural recursion so it evaluates inside the
kernel. -/
def occursIn (sub : List Char) : List Char → Bool
  | [] => sub.isPrefixOf []
  | c :: rest => sub.isPrefixOf (c :: rest) || occursIn sub rest

/-- JS `s.includes(sub)`: substring containment on the character lists. -/
def includes (s sub : String) : Bool :=
  occursIn sub.data s.data

/-- JS `s.toLowerCase()`: per-character lowercasing. -/
def toLowerCase (s : String) : String :=
  String.mk (s.data.map Char.toLower)

/-- The predicate applied by `PostKindChooserModal.getSuggestions` to each
candidate: `postKind.toLowerCase().includes(query.toLowerCase())`. -/
def suggestionPred (query postKind : String) : Bool :=
  includes (toLowerCase postKind) (toLowerCase query)

/-- `PostKindChooserModal.getSuggestions` from `src/main.ts` lines 211-215. -/
def getSuggestions (query : String) : List String :=
  PostKind.values.filter (fun postKind => suggestionPred query postKind)

/-- The folder name computed inside the `create-new-post` callback
(`src/main.ts` lines 67-69):
`content/posts/{kindPrefix}{datePrefix}-{postTitle}` with
`kindPrefix = postKind == PostKind.Note ? "note-" : ""`. -/
def folderNameOf (postKind : String) (now : JsDate) (postTitle : String) : String :=
  let kindPrefix := if postKind == PostKind.Note then "note-" else ""
  let datePrefix := formatDatePrefix now
  "content/posts/" ++ kindPrefix ++ datePrefix ++ "-" ++ postTitle

/-- Spec-side zero padding to width 2: the spec's "zero-padded to width 2"
rule, written independently of the JS `padStart` mechanics. -/
def pad2Spec (n : Nat) : String :=
  if n < 10 then "0" ++ toString n else toString n

/-- Observable effects of one run of the `create-new-post` callback, in
program order. -/
inductive Event where
  | choicePromptOpened
  | textPromptOpened
  | notice (msg : String)
  | createFolderAttempt (path : String)
  | createFileAttempt (path : String) (contents : String)
  | openFileAttempt (path : String)
deriving DecidableEq

/-- The host (Obsidian) collaborators the callback calls into.  Each
fallible call returns the created object's path or the thrown failure's
textual description. -/
structure Host where
  createFolder : String → Except String String
  create : String → String → Except String String
  openFile : String → Except String Unit

/-- The `create-new-post` command callback (`src/main.ts` lines 47-81),
with the two prompts already resolved to `postKind` and `postTitle` and
`new Date()` frozen to `now`.  Produces the sequence of observable events:
prompt openings, notices, and the storage/navigation attempts, with the
single try/catch of the source converting the first failure into one
notice. -/
def createNewPostCallback (host : Host) (postKind postTitle : String)
    (now : JsDate) : List Event :=
  Event.choicePromptOpened :: Event.notice postKind ::
  Event.textPromptOpened :: Event.notice postTitle ::
  (let folderName := folderNameOf postKind now postTitle
   Event.createFolderAttempt folderName ::
   match host.createFolder folderName with
   | .error e => [Event.notice e]
   | .ok folderPath =>
     Event.notice folderPath ::
     Event.createFileAttempt (folderPath ++ "/index.md") "" ::
     match host.create (folderPath ++ "/index.md") "" with
     | .error e => [Event.notice e]
     | .ok filePath =>
       Event.openFileAttempt filePath ::
       match host.openFile filePath with
       | .error e => [Event.notice e]
       | .ok _ => [])

/-- A UI action on an open `PostTitleModal`: a keystroke-driven change of
the text field, or a click on the Submit button. -/
inductive TextPromptAction where
  | change (value : String)
  | clickSubmit
deriving DecidableEq

/-- State of a `PostTitleModal` (`src/main.ts` lines 227-248): the `name`
buffer captured by the text field's onChange handler, whether `close()`
has run, and the values passed to `onSubmit` so far (in order). -/
structure TextPromptState where
  name : String
  closed : Bool
  resolved : List String
deriving DecidableEq

/-- The modal right after construction: empty buffer, open, nothing
resolved. -/
def textPromptInit : TextPromptState :=
  { name := "", closed := false, resolved := [] }

/-- One UI action on the modal.  `change v` runs the onChange handler
(`name = value`); `clickSubmit` runs the Submit button handler
(`this.close(); onSubmit(name)`). -/
def textPromptStep (s : TextPromptState) (a : TextPromptAction) : TextPromptState :=
  match a with
  | .change v => { s with name := v }
  | .clickSubmit => { s with closed := true, resolved := s.resolved ++ [s.name] }

/-- Run a sequence of UI actions from the freshly constructed modal. -/
def textPromptRun (actions : List TextPromptAction) : TextPromptState :=
  actions.foldl textPromptStep textPromptInit

/-- The settings record `PluginSettings { mySetting: string }`. -/
structure PluginSettings where
  mySetting : String
deriving DecidableEq

/-- `DEFAULT_SETTINGS` from `src/main.ts` lines 17-19. -/
def DEFAULT_SETTINGS : PluginSettings :=
  { mySetting := "test" }

/-- What `loadData()` can return: nothing persisted yet, or a stored JSON
record in which each key of the settings shape may be present or absent. -/
structure StoredSettings where
  mySetting : Option String
deriving DecidableEq

/-- JS `Object.assign({}, DEFAULT_SETTINGS, data)` specialised to the
settings shape: a shallow merge where a key present in `data` overrides
the default and a missing key keeps the default. -/
def objectAssign (base : PluginSettings) (data : Option StoredSettings) : PluginSettings :=
  match data with
  | none => base
  | some d => { mySetting := d.mySetting.getD base.mySetting }

/-- `MyPlugin.loadSettings` (`src/main.ts` lines 130-132), with the host's
`loadData()` result passed in. -/
def loadSettings (stored : Option StoredSettings) : PluginSettings :=
  objectAssign DEFAULT_SETTINGS stored

/-- `MyPlugin.saveSettings` (`src/main.ts` lines 134-136): `saveData`
serialises the full record, so every key is present in the stored JSON. -/
def saveSettings (s : PluginSettings) : StoredSettings :=
  { mySetting := some s.mySetting }

/-- A host whose folder creation always fails, as when the folder already
exists. -/
def failHost : Host :=
  { createFolder := fun _ => .error "Folder already exists."
    create := fun p _ => .ok p
    openFile := fun _ => .ok () }

/-- A host on which every storage and navigation call succeeds. -/
def okHost : Host :=
  { createFolder := fun p => .ok p
    create := fun p _ => .ok p
    openFile := fun _ => .ok () }

/-- For every field value a real calendar can produce (below 100), the
code's `pad` agrees with the spec's zero-pad-to-width-2 rule and yields a
string of length exactly 2. -/
theorem pad_agrees_below_100 : ∀ n, n < 100 → pad n = pad2Spec n ∧ (pad n).length = 2 := by
  decide

/-- `occursIn` decides exactly contiguous-substring (infix) containment. -/
theorem occursIn_iff_infix (sub l : List Char) :
    occursIn sub l = true ↔ sub <:+: l := by
  induction l with
  | nil => simp [occursIn, List.isPrefixOf_iff_prefix]
  | cons c rest ih =>
    simp [occursIn, List.isPrefixOf_iff_prefix, ih, List.infix_cons_iff]

/-- Running only onChange actions leaves `resolved` and `closed` untouched
and sets the buffer to the last typed value (or keeps it if none). -/
theorem textPrompt_changes (vs : List String) (s : TextPromptState) :
    (vs.map TextPromptAction.change).foldl textPromptStep s =
      { s with name := vs.getLastD s.name } := by
  induction vs generalizing s with
  | nil => rfl
  | cons v vs ih =>
    simp only [List.map_cons, List.foldl_cons, textPromptStep, List.getLastD_cons]
    exact ih { s with name := v }

/-- C1: For every kind, title and timestamp the Sequencer's kind prefix is
"note-" exactly when the kind is Note and empty otherwise, and the folder
name is content/posts/{kindPrefix}{datePrefix}-{title}; in particular with
kind Note, title "hello" and a date whose prefix is "2024-03-05-09-07" the
path is "content/posts/note-2024-03-05-09-07-hello", and with kind
BlogPost it is "content/posts/2024-03-05-09-07-hello". -/
theorem c1_folder_path (postKind postTitle : String) (now : JsDate) :
    (postKind = PostKind.Note →
      folderNameOf postKind now postTitle =
        "content/posts/" ++ "note-" ++ formatDatePrefix now ++ "-" ++ postTitle) ∧
    (postKind ≠ PostKind.Note →
      folderNameOf postKind now postTitle =
        "content/posts/" ++ "" ++ formatDatePrefix now ++ "-" ++ postTitle) ∧
    folderNameOf PostKind.Note ⟨2024, 2, 5, 9, 7⟩ "hello" =
      "content/posts/note-2024-03-05-09-07-hello" ∧
    folderNameOf PostKind.BlogPost ⟨2024, 2, 5, 9, 7⟩ "hello" =
      "content/posts/2024-03-05-09-07-hello" := by
  refine ⟨?_, ?_, by decide, by decide⟩
  · intro h
    simp [folderNameOf, h]
  · intro h
    simp [folderNameOf, beq_iff_eq, h]

/-- Witness for C1 at the two concrete inputs of the claim. -/
theorem c1_folder_path_witness :
    folderNameOf PostKind.Note ⟨2024, 2, 5, 9, 7⟩ "hello" =
      "content/posts/" ++ "note-" ++ formatDatePrefix ⟨2024, 2, 5, 9, 7⟩ ++ "-" ++ "hello" ∧
    folderNameOf PostKind.BlogPost ⟨2024, 2, 5, 9, 7⟩ "hello" =
      "content/posts/" ++ "" ++ formatDatePrefix ⟨2024, 2, 5, 9, 7⟩ ++ "-" ++ "hello" :=
  ⟨(c1_folder_path PostKind.Note "hello" ⟨2024, 2, 5, 9, 7⟩).1 rfl,
   (c1_folder_path PostKind.BlogPost "hello" ⟨2024, 2, 5, 9, 7⟩).2.1 (by decide)⟩

/-- C2: formatDatePrefix returns "{YYYY}-{MM}-{DD}-{hh}-{mm}" with the
month 1-indexed and month, day, hour and minute zero-padded to width 2
(each padded field has length exactly 2 for calendar values) while the
year is not padded; at year 2024, month 3 (field `getMonth = 2`), day 5,
hour 9, minute 7 it returns exactly "2024-03-05-09-07". -/
theorem c2_formatDatePrefix_format (d : JsDate)
    (hmo : d.getMonth + 1 < 100) (hda : d.getDate < 100)
    (hho : d.getHours < 100) (hmi : d.getMinutes < 100) :
    (formatDatePrefix d =
      toString d.getFullYear ++ "-" ++ pad2Spec (d.getMonth + 1) ++ "-" ++
        pad2Spec d.getDate ++ "-" ++ pad2Spec d.getHours ++ "-" ++ pad2Spec d.getMinutes) ∧
    (pad (d.getMonth + 1)).length = 2 ∧ (pad d.getDate).length = 2 ∧
    (pad d.getHours).length = 2 ∧ (pad d.getMinutes).length = 2 ∧
    formatDatePrefix ⟨2024, 2, 5, 9, 7⟩ = "2024-03-05-09-07" := by
  obtain ⟨emo, lmo⟩ := pad_agrees_below_100 _ hmo
  obtain ⟨eda, lda⟩ := pad_agrees_below_100 _ hda
  obtain ⟨eho, lho⟩ := pad_agrees_below_100 _ hho
  obtain ⟨emi, lmi⟩ := pad_agrees_below_100 _ hmi
  refine ⟨?_, lmo, lda, lho, lmi, by decide⟩
  simp only [formatDatePrefix, emo, eda, eho, emi]

/-- Witness for C2 at the concrete instant of the claim. -/
theorem c2_formatDatePrefix_format_witness :
    formatDatePrefix ⟨2024, 2, 5, 9, 7⟩ = "2024-03-05-09-07" :=
  (c2_formatDatePrefix_format ⟨2024, 2, 5, 9, 7⟩
    (by decide) (by decide) (by decide) (by decide)).2.2.2.2.2

/-- C8: formatDatePrefix is deterministic: two dates with equal year,
month, day, hour and minute fields format to equal strings.  (In this
embedding it is a pure total function, so it has no side effects by
construction.) -/
theorem c8_formatDatePrefix_deterministic (a b : JsDate)
    (h1 : a.getFullYear = b.getFullYear) (h2 : a.getMonth = b.getMonth)
    (h3 : a.getDate = b.getDate) (h4 : a.getHours = b.getHours)
    (h5 : a.getMinutes = b.getMinutes) :
    formatDatePrefix a = formatDatePrefix b := by
  cases a
  cases b
  simp only [] at h1 h2 h3 h4 h5
  subst h1 h2 h3 h4 h5
  rfl

/-- Witness for C8 at two structurally distinct but field-equal dates. -/
theorem c8_formatDatePrefix_deterministic_witness :
    formatDatePrefix ⟨2024, 2, 5, 9, 7⟩ = formatDatePrefix ⟨2024, 1 + 1, 5, 9, 7⟩ :=
  c8_formatDatePrefix_deterministic ⟨2024, 2, 5, 9, 7⟩ ⟨2024, 1 + 1, 5, 9, 7⟩
    rfl rfl rfl rfl rfl

/-- C3: for every query, getSuggestions is exactly the ordered subsequence
of the fixed candidate list whose elements, lowercased, contain the
lowercased query as a substring: it is a sublist of the candidates
(insertion order preserved, no reordering or ranking) and membership is
exactly the case-insensitive substring condition. -/
theorem c3_getSuggestions_exact (q : String) :
    List.Sublist (getSuggestions q) PostKind.values ∧
    ∀ c, c ∈ getSuggestions q ↔
      c ∈ PostKind.values ∧ (toLowerCase q).data <:+: (toLowerCase c).data := by
  refine ⟨List.filter_sublist _, fun c => ?_⟩
  simp [getSuggestions, List.mem_filter, suggestionPred, includes, occursIn_iff_infix]

/-- Witness for C3 at the query "NO", which case-insensitively matches
the candidate "note". -/
theorem c3_getSuggestions_exact_witness :
    "note" ∈ PostKind.values ∧ (toLowerCase "NO").data <:+: (toLowerCase "note").data :=
  ((c3_getSuggestions_exact "NO").2 "note").1 (by decide)

/-- C7: the filtered output is a subset of the candidate list, and
re-filtering the output with the same query returns it unchanged. -/
theorem c7_getSuggestions_subset_idempotent (q : String) :
    (∀ c ∈ getSuggestions q, c ∈ PostKind.values) ∧
    (getSuggestions q).filter (fun postKind => suggestionPred q postKind) =
      getSuggestions q := by
  constructor
  · intro c hc
    exact (List.mem_filter.1 hc).1
  · exact List.filter_eq_self.2 fun a ha => (List.mem_filter.1 ha).2

/-- Witness for C7 at the query "NO" and the surviving candidate "note". -/
theorem c7_getSuggestions_subset_idempotent_witness : "note" ∈ PostKind.values :=
  (c7_getSuggestions_subset_idempotent "NO").1 "note" (by decide)

/-- C4: if the folder-creation request fails, the run shows exactly one
notice after the attempt, carrying the failure's textual description, and
contains no file-creation attempt and no navigation attempt; the trace
ends there, so there is no retry (the folder-creation attempt occurs
once). -/
theorem c4_folder_failure (host : Host) (postKind postTitle : String) (now : JsDate)
    (e : String)
    (hfail : host.createFolder (folderNameOf postKind now postTitle) = .error e) :
    createNewPostCallback host postKind postTitle now =
      [Event.choicePromptOpened, Event.notice postKind, Event.textPromptOpened,
       Event.notice postTitle,
       Event.createFolderAttempt (folderNameOf postKind now postTitle),
       Event.notice e] ∧
    (createNewPostCallback host postKind postTitle now).drop 5 = [Event.notice e] ∧
    (∀ p c, Event.createFileAttempt p c ∉ createNewPostCallback host postKind postTitle now) ∧
    (∀ p, Event.openFileAttempt p ∉ createNewPostCallback host postKind postTitle now) := by
  have htr : createNewPostCallback host postKind postTitle now =
      [Event.choicePromptOpened, Event.notice postKind, Event.textPromptOpened,
       Event.notice postTitle,
       Event.createFolderAttempt (folderNameOf postKind now postTitle),
       Event.notice e] := by
    simp [createNewPostCallback, hfail]
  refine ⟨htr, ?_, ?_, ?_⟩ <;> simp [htr]

/-- Witness for C4 on a host whose folder creation always fails. -/
theorem c4_folder_failure_witness :
    createNewPostCallback failHost PostKind.Note "hello" ⟨2024, 2, 5, 9, 7⟩ =
      [Event.choicePromptOpened, Event.notice PostKind.Note, Event.textPromptOpened,
       Event.notice "hello",
       Event.createFolderAttempt (folderNameOf PostKind.Note ⟨2024, 2, 5, 9, 7⟩ "hello"),
       Event.notice "Folder already exists."] :=
  (c4_folder_failure failHost PostKind.Note "hello" ⟨2024, 2, 5, 9, 7⟩
    "Folder already exists." rfl).1

/-- C10: every run shows a notice with the resolved kind right after the
Choice Prompt resolves and before the Text Prompt opens, then a notice
with the resolved title, and, when folder creation succeeds, a notice with
the created folder's path immediately after the creation attempt. -/
theorem c10_notices (host : Host) (postKind postTitle : String) (now : JsDate) :
    (createNewPostCallback host postKind postTitle now).take 4 =
      [Event.choicePromptOpened, Event.notice postKind, Event.textPromptOpened,
       Event.notice postTitle] ∧
    ∀ folderPath, host.createFolder (folderNameOf postKind now postTitle) = .ok folderPath →
      (createNewPostCallback host postKind postTitle now).take 6 =
        [Event.choicePromptOpened, Event.notice postKind, Event.textPromptOpened,
         Event.notice postTitle,
         Event.createFolderAttempt (folderNameOf postKind now postTitle),
         Event.notice folderPath] := by
  constructor
  · cases hc : host.createFolder (folderNameOf postKind now postTitle) <;>
      simp [createNewPostCallback, hc]
  · intro folderPath hok
    simp [createNewPostCallback, hok]

/-- Witness for C10 on a host whose storage calls all succeed. -/
theorem c10_notices_witness :
    (createNewPostCallback okHost PostKind.Note "hello" ⟨2024, 2, 5, 9, 7⟩).take 6 =
      [Event.choicePromptOpened, Event.notice PostKind.Note, Event.textPromptOpened,
       Event.notice "hello",
       Event.createFolderAttempt (folderNameOf PostKind.Note ⟨2024, 2, 5, 9, 7⟩ "hello"),
       Event.notice (folderNameOf PostKind.Note ⟨2024, 2, 5, 9, 7⟩ "hello")] :=
  (c10_notices okHost PostKind.Note "hello" ⟨2024, 2, 5, 9, 7⟩).2
    (folderNameOf PostKind.Note ⟨2024, 2, 5, 9, 7⟩ "hello") rfl

/-- C5: the Text Prompt resolves exactly once, on confirmation, with the
value held in the buffer at confirm time: after any sequence of onChange
actions nothing is resolved yet, clicking Submit then resolves exactly the
last typed value (the empty string when nothing was typed), and confirming
immediately after opening resolves the empty string. -/
theorem c5_text_prompt_resolution (vs : List String) :
    (textPromptRun (vs.map TextPromptAction.change)).resolved = [] ∧
    (textPromptRun (vs.map TextPromptAction.change ++ [TextPromptAction.clickSubmit])).resolved =
      [vs.getLastD ""] ∧
    (textPromptRun [TextPromptAction.clickSubmit]).resolved = [""] := by
  refine ⟨?_, ?_, rfl⟩
  · rw [textPromptRun, textPrompt_changes]
    rfl
  · rw [textPromptRun, List.foldl_append, textPrompt_changes]
    rfl

/-- The folder name with the empty title is the prefix part followed by a
final "-". -/
theorem folderNameOf_empty_title (postKind : String) (now : JsDate) :
    folderNameOf postKind now "" =
      ("content/posts/" ++ (if postKind == PostKind.Note then "note-" else "") ++
        formatDatePrefix now) ++ "-" := by
  simp [folderNameOf, String.append_empty, String.append_assoc]

/-- C6: saving {mySetting := "x"} and loading it back yields
{mySetting := "x"}; loading with nothing persisted yields the default
{mySetting := "test"}; and the load is a shallow merge over the default in
which a stored key overrides the default and a missing key keeps it. -/
theorem c6_settings_roundtrip :
    loadSettings (some (saveSettings { mySetting := "x" })) = { mySetting := "x" } ∧
    loadSettings none = { mySetting := "test" } ∧
    (∀ s : PluginSettings, loadSettings (some (saveSettings s)) = s) ∧
    (∀ d : StoredSettings, (loadSettings (some d)).mySetting = d.mySetting.getD "test") ∧
    (loadSettings (some { mySetting := none }) = { mySetting := "test" }) := by
  refine ⟨rfl, rfl, fun s => ?_, fun d => rfl, rfl⟩
  cases s
  rfl

/-- C9: the Sequencer embeds the title verbatim, with no sanitization: the
folder name with title t is exactly the folder name with the empty title
followed by t; the empty title yields a path whose last character is "-";
and a title containing "/" contributes additional separators (the concrete
title "a/b" yields three "/" characters in the path). -/
theorem c9_title_unsanitized (postKind : String) (now : JsDate) :
    (∀ postTitle, folderNameOf postKind now postTitle =
      folderNameOf postKind now "" ++ postTitle) ∧
    (folderNameOf postKind now "").data.getLast? = some '-' ∧
    folderNameOf PostKind.Note ⟨2024, 2, 5, 9, 7⟩ "" =
      "content/posts/note-2024-03-05-09-07-" ∧
    ((folderNameOf PostKind.Note ⟨2024, 2, 5, 9, 7⟩ "a/b").data.filter
      (fun c => c = '/')).length = 3 := by
  refine ⟨fun postTitle => ?_, ?_, by decide, by decide⟩
  · simp [folderNameOf, String.append_empty, String.append_assoc]
  · rw [folderNameOf_empty_title, String.data_append]
    exact List.getLast?_concat _

end HugoPost
